import Mathlib

/-!
Shallow embedding of `dnsimple.py`, a Python client for the DNSimple REST
API, for checking its natural-language specification.

The client class holds a fixed endpoint and an HTTP session; every public
method builds a path (and, for writes, a nested dict body) and calls the
private helper `__resthelper`, which dispatches on the method string.

Modelling choices:
 - JSON values (and Python dict/list/str/int arguments) are one inductive
   `Json`; dict bodies keep insertion order as association lists.
 - The HTTP transport (the `requests` session) is an oracle
   `Transport : HttpCall → HttpResponse`; response bodies are modelled as
   already-decoded JSON (the claims are not about parse failures).
 - Each operation returns the `Except` outcome together with the list of
   HTTP calls it performed, so "the transport records zero invocations"
   is the second component being `[]`.
 - Python exceptions become constructors of `DnsError`: `raise_for_status`
   on a status of 400 or above raises `httpError` (carrying status and
   body), `raise ValueError(...)` becomes `valueError`, the bare
   `raise Exception(...)` becomes `exn`, a failed dict subscript becomes
   `keyError`, a missing attribute becomes `attributeError`.
 - Python truthiness of arguments (`if not registrant_id`, `and data`,
   `if record_ttl`) is `Json.truthy`.
-/

set_option autoImplicit false

namespace Dnsimple

/-- JSON values, doubling as the Python values passed as arguments:
strings, numbers, booleans, None, lists and (insertion-ordered) dicts. -/
inductive Json where
  | null
  | str (s : String)
  | num (n : Int)
  | bool (b : Bool)
  | arr (elems : List Json)
  | obj (entries : List (String × Json))

/-- Python truthiness: empty string, zero, False, None, empty list and
empty dict are falsy; everything else is truthy. -/
def Json.truthy : Json → Bool
  | .null => false
  | .str s => !s.isEmpty
  | .num n => n != 0
  | .bool b => b
  | .arr elems => !elems.isEmpty
  | .obj entries => !entries.isEmpty

/-- Python `isinstance(x, dict)`. -/
def Json.isDict : Json → Bool
  | .obj _ => true
  | _ => false

/-- Python `len(x)`: defined on strings, lists and dicts; `none` models the
TypeError `len` raises elsewhere. -/
def Json.pyLen : Json → Option Nat
  | .str s => some s.length
  | .arr elems => some elems.length
  | .obj entries => some entries.length
  | _ => none

/-- Entries of a dict (empty on non-dicts; only applied to dicts). -/
def Json.entriesOf : Json → List (String × Json)
  | .obj entries => entries
  | _ => []

/-- Python exceptions raised by the client. -/
inductive DnsError where
  | httpError (status : Nat) (body : Json)
  | valueError (msg : String)
  | exn (msg : String)
  | keyError (key : String)
  | attributeError (name : String)
  | typeError (msg : String)

/-- One HTTP request as handed to the session: method string, full url,
and the body dict for `post`/`put` (recorded pre-serialization). -/
structure HttpCall where
  method : String
  url : String
  body : Option Json

/-- A transport response: status code and the decoded JSON body. -/
structure HttpResponse where
  status : Nat
  body : Json

/-- The HTTP transport (the `requests` session) as a pure oracle. -/
def Transport : Type := HttpCall → HttpResponse

/-- The fixed base url, `self.__endpoint = "https://dnsimple.com"`. -/
def endpoint : String := "https://dnsimple.com"

/-- Outcome of a client method: the returned value or raised exception,
plus the HTTP calls made, in order. -/
def Outcome : Type := Except DnsError Json × List HttpCall

/-- Embeds `DNSimple.__resthelper(self, method, url, data="", expect_404=False)`.

`get`: issue the GET; unless `expect_404` and the status is 404, a status
of 400 or above raises `httpError` (`request.raise_for_status()`); return
the decoded body. `post`/`put` with truthy `data`: serialize and send; the
decoded body is returned with no status check (the source performs no
`raise_for_status` on these branches). `delete`: send, check status,
return body. Anything else — including `post`/`put` with falsy `data`
("Refuse to post without data") — raises the generic exception. -/
def resthelper (tr : Transport) (method url : String) (data : Json)
    (expect_404 : Bool) : Outcome :=
  let fullUrl := endpoint ++ url
  if method == "get" then
    let call : HttpCall := ⟨"get", fullUrl, none⟩
    let r := tr call
    if expect_404 && (r.status == 404) then
      (.ok r.body, [call])
    else if 400 ≤ r.status then
      (.error (.httpError r.status r.body), [call])
    else
      (.ok r.body, [call])
  else if method == "post" && data.truthy then
    let call : HttpCall := ⟨"post", fullUrl, some data⟩
    let r := tr call
    (.ok r.body, [call])
  else if method == "put" && data.truthy then
    let call : HttpCall := ⟨"put", fullUrl, some data⟩
    let r := tr call
    (.ok r.body, [call])
  else if method == "delete" then
    let call : HttpCall := ⟨"delete", fullUrl, none⟩
    let r := tr call
    if 400 ≤ r.status then
      (.error (.httpError r.status r.body), [call])
    else
      (.ok r.body, [call])
  else
    (.error (.exn "Could not find valid method to perform."), [])

/-- The method names defined on the `DNSimple` class, as they appear in the
source. Python attribute lookup on `self` fails with `AttributeError` for
any name not in this list. -/
def classMethodNames : List String :=
  ["__init__", "__resthelper",
   "get_domain", "create_domain", "check_domain", "register_domain",
   "transfer_domain", "renew_domain", "enable_auto_renewal",
   "disable_auto_renewal", "delete_domain",
   "nameservers",
   "get_services", "get_applied_services", "get_available_services",
   "apply_service", "remove_service",
   "get_record", "create_record", "update_record", "delete_record",
   "enable_vanity_name_servers", "disable_vanity_name_servers",
   "get_contact", "create_contact", "update_contact", "delete_contact",
   "get_template", "create_template", "delete_template",
   "apply_template_to_domain",
   "get_template_record", "create_template_record", "delete_template_record",
   "required_extended_attributes",
   "enable_privacy_protection", "disable_privacy_protection",
   "get_domain_members", "add_domain_member", "remove_domain_member",
   "get_ssl_certificate", "purchase_ssl_certificate_for_domain",
   "submit_ssl_certificate",
   "create_user_account"]

/-- Embeds `DNSimple.get_domain(self, domain="")`: GET `/domains/` + domain. -/
def get_domain (tr : Transport) (domain : String) : Outcome :=
  resthelper tr "get" ("/domains/" ++ domain) (Json.str "") false

/-- Embeds `DNSimple.check_domain(self, domainname)`: GET
`/domains/` + domainname + `/check` with expect_404 set. -/
def check_domain (tr : Transport) (domainname : String) : Outcome :=
  resthelper tr "get" ("/domains/" ++ domainname ++ "/check") (Json.str "") true

/-- The try-block body of `register_domain`,
`self.getdomains()[0]["domain"]["registrant_id"]`: its first step is the
attribute lookup `self.getdomains`, and `classMethodNames` contains no
`getdomains` (the list method is named `get_domain`), so the lookup raises
`AttributeError` before any call or indexing happens. No HTTP request is
issued. -/
def tryInferRegistrantId : Except DnsError Json :=
  if classMethodNames.contains "getdomains" then
    Json.null |> .ok
  else
    .error (.attributeError "getdomains")

/-- Embeds `DNSimple.register_domain(self, domainname, registrant_id="",
extended_attributes={})`. When `registrant_id` is falsy, the try block
raises (see `tryInferRegistrantId`) and the bare `except:` swallows the
exception — it prints a message and evaluates the name `exit` without
calling it, so execution continues with `registrant_id` unchanged. Then
POST `/domain_registrations` with
`{"domain": {"name": ..., "registrant_id": ...}}`, adding
`extended_attribute` when `extended_attributes` is a truthy dict. -/
def register_domain (tr : Transport) (domainname : String)
    (registrant_id extended_attributes : Json) : Outcome :=
  let rid :=
    if !registrant_id.truthy then
      match tryInferRegistrantId with
      | .ok v => v
      | .error _ => registrant_id
    else registrant_id
  let domainEntries := [("name", Json.str domainname), ("registrant_id", rid)]
  let domainEntries :=
    if extended_attributes.truthy && extended_attributes.isDict then
      domainEntries ++ [("extended_attribute", extended_attributes)]
    else domainEntries
  resthelper tr "post" "/domain_registrations"
    (Json.obj [("domain", Json.obj domainEntries)]) false

/-- Embeds `DNSimple.nameservers(self, domain, nameservers="", reset=False)`.
Note the source condition on the explicit-map branch is
`(not isinstance(nameservers, dict)) and (len(nameservers) < 7)`: the
POST only happens for a truthy NON-dict of length below 7, and a dict
falls into the `ValueError` branch. `len` on a value with no length
raises `TypeError`. -/
def nameservers (tr : Transport) (domain : String) (ns : Json)
    (reset : Bool) : Outcome :=
  let default_nameservers : Json :=
    Json.obj [("ns1", Json.str "ns1.dnsimple.com"),
              ("ns2", Json.str "ns2.dnsimple.com"),
              ("ns3", Json.str "ns3.dnsimple.com"),
              ("ns4", Json.str "ns4.dnsimple.com")]
  if ns.truthy && reset then
    (.error (.valueError "Provide either nameservers or reset, not both."), [])
  else if ns.truthy then
    if !ns.isDict then
      match ns.pyLen with
      | some l =>
        if l < 7 then
          resthelper tr "post" ("/domains/" ++ domain ++ "/name_servers")
            (Json.obj [("name_servers", ns)]) false
        else
          (.error (.valueError "nameservers must be a dict of length 6 or less."), [])
      | none => (.error (.typeError "object has no len"), [])
    else
      (.error (.valueError "nameservers must be a dict of length 6 or less."), [])
  else if reset then
    resthelper tr "post" ("/domains/" ++ domain ++ "/name_servers")
      (Json.obj [("name_servers", default_nameservers)]) false
  else
    (.error (.valueError "Must provide either nameservers or reset."), [])

/-- Embeds `DNSimple.create_record(self, domain, record_name, record_type,
record_content, record_ttl="", record_prio="")`: POST
`/domains/{domain}/records` with a `record` dict holding name,
record_type and content, plus `ttl` when `record_ttl` is truthy and
`prio` when `record_prio` is truthy. -/
def create_record (tr : Transport)
    (domain record_name record_type record_content : String)
    (record_ttl record_prio : Json) : Outcome :=
  let recordEntries := [("name", Json.str record_name),
                        ("record_type", Json.str record_type),
                        ("content", Json.str record_content)]
  let recordEntries :=
    if record_ttl.truthy then recordEntries ++ [("ttl", record_ttl)]
    else recordEntries
  let recordEntries :=
    if record_prio.truthy then recordEntries ++ [("prio", record_prio)]
    else recordEntries
  resthelper tr "post" ("/domains/" ++ domain ++ "/records")
    (Json.obj [("record", Json.obj recordEntries)]) false

/-- Embeds `DNSimple.update_record(self, domain, record_id, record_name="",
record_content="", record_ttl="", record_prio="")`: start from
`{"record": {}}`, add each of name, content, ttl, prio only when truthy,
then PUT `/domains/{domain}/records/{record_id}`. -/
def update_record (tr : Transport) (domain record_id : String)
    (record_name record_content record_ttl record_prio : Json) : Outcome :=
  let recordEntries : List (String × Json) := []
  let recordEntries :=
    if record_name.truthy then recordEntries ++ [("name", record_name)]
    else recordEntries
  let recordEntries :=
    if record_content.truthy then recordEntries ++ [("content", record_content)]
    else recordEntries
  let recordEntries :=
    if record_ttl.truthy then recordEntries ++ [("ttl", record_ttl)]
    else recordEntries
  let recordEntries :=
    if record_prio.truthy then recordEntries ++ [("prio", record_prio)]
    else recordEntries
  resthelper tr "put" ("/domains/" ++ domain ++ "/records/" ++ record_id)
    (Json.obj [("record", Json.obj recordEntries)]) false

/-- Python dict subscript `d[k]`: the value at the key, or `KeyError`. -/
def pyGetItem (d : Json) (k : String) : Except DnsError Json :=
  match d with
  | .obj entries =>
    match entries.lookup k with
    | some v => .ok v
    | none => .error (.keyError k)
  | _ => .error (.typeError "object is not subscriptable")

/-- Python dict assignment `d[k] = v` on an association list: replace in
place when the key exists, else append. -/
def setKey (entries : List (String × Json)) (k : String) (v : Json) :
    List (String × Json) :=
  match entries with
  | [] => [(k, v)]
  | (k0, v0) :: rest =>
    if k0 == k then (k, v) :: rest else (k0, v0) :: setKey rest k v

/-- The loop `for k, v in nameservers.items():
(postdata[server_source])[k] = v` of `enable_vanity_name_servers`: each
iteration subscripts `postdata` with the string `server_source` and
assigns into that inner dict. A `KeyError` from the subscript aborts the
method. -/
def vanityLoop (server_source : String) (postdata : Json) :
    List (String × Json) → Except DnsError Json
  | [] => .ok postdata
  | (k, v) :: rest =>
    match pyGetItem postdata server_source with
    | .error e => .error e
    | .ok inner =>
      vanityLoop server_source
        (Json.obj (setKey postdata.entriesOf server_source
          (Json.obj (setKey inner.entriesOf k v)))) rest

/-- Embeds `DNSimple.enable_vanity_name_servers(self, domain, server_source,
nameservers={})`. `postdata` is
`{"vanity_nameserver_configuration": {"server_source": server_source}}`;
for `server_source == "dnsimple"` it is posted as is; for
`server_source == "external"` with a truthy dict of nameservers the
source loops assigning into `postdata[server_source]` — a subscript by
the STRING `"external"`, not by the `keystring` the dict was built with;
otherwise `ValueError`. -/
def enable_vanity_name_servers (tr : Transport) (domain server_source : String)
    (ns : Json) : Outcome :=
  let keystring := "vanity_nameserver_configuration"
  let postdata : Json :=
    Json.obj [(keystring, Json.obj [("server_source", Json.str server_source)])]
  if server_source == "dnsimple" then
    resthelper tr "post" ("/domains/" ++ domain ++ "/vanity_name_servers")
      postdata false
  else if server_source == "external" && ns.truthy && ns.isDict then
    match vanityLoop server_source postdata ns.entriesOf with
    | .error e => (.error e, [])
    | .ok updated =>
      resthelper tr "post" ("/domains/" ++ domain ++ "/vanity_name_servers")
        updated false
  else
    (.error (.valueError "Incorrect parameters passed to method."), [])

/-- Embeds `DNSimple.apply_template_to_domain(self, domain, template)`: calls the
helper with method `post` and NO data argument, so `data` keeps its falsy
default `""`. -/
def apply_template_to_domain (tr : Transport) (domain template : String) :
    Outcome :=
  resthelper tr "post"
    ("/domains/" ++ domain ++ "/templates/" ++ template ++ "/apply")
    (Json.str "") false

/-- Embeds `DNSimple.enable_privacy_protection(self, domain)`: calls the helper
with method `post` and NO data argument. -/
def enable_privacy_protection (tr : Transport) (domain : String) : Outcome :=
  resthelper tr "post" ("/domains/" ++ domain ++ "/whois_privacy")
    (Json.str "") false

/-- Embeds `DNSimple.add_domain_member(self, domain, email)`: the source builds
`postdata = {"membership": {"email": email}}` but then calls the helper
WITHOUT passing it, so `data` keeps its falsy default `""`. -/
def add_domain_member (tr : Transport) (domain email : String) : Outcome :=
  let _postdata : Json :=
    Json.obj [("membership", Json.obj [("email", Json.str email)])]
  resthelper tr "post" ("/domains/" ++ domain ++ "/memberships")
    (Json.str "") false

/-! Mock transports used to evaluate the client at concrete inputs. -/

/-- A transport that answers every request with status 200 and body
`{"ok": true}`. -/
def trOk : Transport := fun _ => ⟨200, Json.obj [("ok", Json.bool true)]⟩

/-- A transport that answers every request with status 500 and body
`{"error": "boom"}`. -/
def tr500 : Transport := fun _ => ⟨500, Json.obj [("error", Json.str "boom")]⟩

/-- A transport that answers every request with status 404 and body
`{"available": true}`. -/
def tr404 : Transport := fun _ => ⟨404, Json.obj [("available", Json.bool true)]⟩

/-- Helper: a `post` dispatch whose data is a non-empty dict always takes
the `post` branch and returns the decoded body. -/
theorem resthelper_post_record (tr : Transport) (url k : String) (v : Json)
    (rest : List (String × Json)) (e : Bool) :
    resthelper tr "post" url (Json.obj ((k, v) :: rest)) e
      = (.ok (tr ⟨"post", endpoint ++ url, some (Json.obj ((k, v) :: rest))⟩).body,
         [⟨"post", endpoint ++ url, some (Json.obj ((k, v) :: rest))⟩]) := by
  simp [resthelper, Json.truthy]

/-- Helper: a `put` dispatch whose data is a non-empty dict always takes
the `put` branch and returns the decoded body. -/
theorem resthelper_put_record (tr : Transport) (url k : String) (v : Json)
    (rest : List (String × Json)) (e : Bool) :
    resthelper tr "put" url (Json.obj ((k, v) :: rest)) e
      = (.ok (tr ⟨"put", endpoint ++ url, some (Json.obj ((k, v) :: rest))⟩).body,
         [⟨"put", endpoint ++ url, some (Json.obj ((k, v) :: rest))⟩]) := by
  simp [resthelper, Json.truthy]

/-- Claim C1: the claim says a POST or PUT dispatch with a non-empty body
whose response status is non-2xx fails with an HTTP error. The source has
no `raise_for_status` on the `post` and `put` branches: for EVERY
transport and every status, the decoded body is returned as a success —
the failure is silently swallowed. This refutes the claim on the code
(the specification itself flags this as a defect of the snapshot). -/
theorem post_put_swallow_http_failures (tr : Transport) (url : String)
    (data : Json) (e : Bool) (h : data.truthy = true) :
    resthelper tr "post" url data e
      = (.ok (tr ⟨"post", endpoint ++ url, some data⟩).body,
         [⟨"post", endpoint ++ url, some data⟩])
  ∧ resthelper tr "put" url data e
      = (.ok (tr ⟨"put", endpoint ++ url, some data⟩).body,
         [⟨"put", endpoint ++ url, some data⟩]) := by
  constructor <;> simp [resthelper, h]

/-- Witness for C1 at a transport answering 500: the POST body
`{"domain": {"name": "x"}}` is truthy, and dispatch returns the decoded
error body as a success instead of raising. -/
theorem post_put_swallow_http_failures_witness :
    (Json.obj [("domain", Json.obj [("name", Json.str "x")])]).truthy = true
  ∧ resthelper tr500 "post" "/domains"
      (Json.obj [("domain", Json.obj [("name", Json.str "x")])]) false
      = (.ok (Json.obj [("error", Json.str "boom")]),
         [⟨"post", endpoint ++ "/domains",
           some (Json.obj [("domain", Json.obj [("name", Json.str "x")])])⟩]) :=
  ⟨rfl,
   (post_put_swallow_http_failures tr500 "/domains"
     (Json.obj [("domain", Json.obj [("name", Json.str "x")])]) false rfl).1⟩

/-- Claim C2: the claim says `register_domain` with an empty
`registrant_id` first issues a list-domains GET and infers the id from
the first domain, failing with a lookup error when none exists. On the
source, the try block references `self.getdomains` — a method that does
not exist (`classMethodNames` has only `get_domain`) — so it raises
`AttributeError`, which the bare `except:` swallows; for EVERY transport
the single HTTP call is the registration POST, issued with the EMPTY
`registrant_id`, and no GET happens and no lookup error is raised. -/
theorem register_domain_skips_inference (tr : Transport) (domainname : String) :
    classMethodNames.contains "getdomains" = false
  ∧ register_domain tr domainname (Json.str "") (Json.obj [])
      = (.ok (tr ⟨"post", endpoint ++ "/domain_registrations",
            some (Json.obj [("domain",
              Json.obj [("name", Json.str domainname),
                        ("registrant_id", Json.str "")])])⟩).body,
         [⟨"post", endpoint ++ "/domain_registrations",
           some (Json.obj [("domain",
             Json.obj [("name", Json.str domainname),
                       ("registrant_id", Json.str "")])])⟩]) :=
  ⟨rfl, rfl⟩

/-- Claim C3: the claim says a dict of at most 6 entries with reset false
is POSTed as `name_servers`. The source guard is
`(not isinstance(nameservers, dict)) and (len(nameservers) < 7)`, so EVERY
truthy dict — whatever its size — falls into the `ValueError` branch and
no transport call is made; the claim fails on the code. The mutual
exclusion arms of the claim do hold (see the second and third conjuncts). -/
theorem nameservers_rejects_every_dict (tr : Transport) (domain : String)
    (ns : Json) (hd : ns.isDict = true) (ht : ns.truthy = true) :
    nameservers tr domain ns false
      = (.error (.valueError "nameservers must be a dict of length 6 or less."), [])
  ∧ nameservers tr domain ns true
      = (.error (.valueError "Provide either nameservers or reset, not both."), [])
  ∧ nameservers tr domain (Json.str "") false
      = (.error (.valueError "Must provide either nameservers or reset."), []) := by
  refine ⟨?_, ?_, rfl⟩ <;> simp [nameservers, hd, ht]

/-- Witness for C3 at the one-entry dict `{"ns1": "a.ns.example.com"}` —
a dict of length at most 6, which the claim says is accepted, yet the
call raises `ValueError` and performs zero transport invocations. -/
theorem nameservers_rejects_every_dict_witness :
    (Json.obj [("ns1", Json.str "a.ns.example.com")]).isDict = true
  ∧ (Json.obj [("ns1", Json.str "a.ns.example.com")]).truthy = true
  ∧ nameservers trOk "example.com"
      (Json.obj [("ns1", Json.str "a.ns.example.com")]) false
      = (.error (.valueError "nameservers must be a dict of length 6 or less."), []) :=
  ⟨rfl, rfl,
   (nameservers_rejects_every_dict trOk "example.com"
     (Json.obj [("ns1", Json.str "a.ns.example.com")]) rfl rfl).1⟩

/-- Claim C4: the claim says `enable_vanity_name_servers` with
server_source "external" and a non-empty dict posts
`{"vanity_nameserver_configuration": {"server_source": "external", ...}}`.
The source loop subscripts `postdata[server_source]`, i.e.
`postdata["external"]`, but the only key of `postdata` is
`"vanity_nameserver_configuration"`; the first iteration raises
`KeyError("external")` for EVERY non-empty dict, and no transport call is
made. The claim fails on the code. -/
theorem enable_vanity_external_keyerror (tr : Transport) (domain k : String)
    (v : Json) (rest : List (String × Json)) :
    enable_vanity_name_servers tr domain "external" (Json.obj ((k, v) :: rest))
      = (.error (.keyError "external"), []) := by
  simp [enable_vanity_name_servers, vanityLoop, pyGetItem, Json.entriesOf,
        Json.truthy, Json.isDict, List.lookup]

/-- Claim C5: the claim says `add_domain_member` issues a POST with body
`{"membership": {"email": email}}`. The source builds that dict but calls
the helper without passing it, so the helper sees its falsy default and
raises the generic exception for EVERY transport, domain and email; zero
transport invocations. The claim fails on the code. -/
theorem add_domain_member_never_posts (tr : Transport) (domain email : String) :
    add_domain_member tr domain email
      = (.error (.exn "Could not find valid method to perform."), []) := rfl

/-- Claim C6: the claim says the bodiless POST endpoints succeed. The
helper refuses any POST whose `data` is falsy, and both
`apply_template_to_domain` and `enable_privacy_protection` call it with
no data, so both raise the generic exception for EVERY transport and
perform zero transport invocations; they can never succeed. The claim
fails on the code. -/
theorem bodiless_post_endpoints_always_raise (tr : Transport)
    (domain template : String) :
    apply_template_to_domain tr domain template
      = (.error (.exn "Could not find valid method to perform."), [])
  ∧ enable_privacy_protection tr domain
      = (.error (.exn "Could not find valid method to perform."), []) :=
  ⟨rfl, rfl⟩

/-- Claim C7: GET dispatch status semantics. A 404 response with
expect_404 set is returned as a success; with expect_404 clear, any
status of 400 or above raises `httpError` carrying the status and body;
a success status (below 400) returns the decoded body, whatever
expect_404 is. -/
theorem get_dispatch_status_semantics (tr : Transport) (path : String)
    (e : Bool) :
    ((tr ⟨"get", endpoint ++ path, none⟩).status = 404 →
      resthelper tr "get" path (Json.str "") true
        = (.ok (tr ⟨"get", endpoint ++ path, none⟩).body,
           [⟨"get", endpoint ++ path, none⟩]))
  ∧ (400 ≤ (tr ⟨"get", endpoint ++ path, none⟩).status →
      resthelper tr "get" path (Json.str "") false
        = (.error (.httpError (tr ⟨"get", endpoint ++ path, none⟩).status
                              (tr ⟨"get", endpoint ++ path, none⟩).body),
           [⟨"get", endpoint ++ path, none⟩]))
  ∧ ((tr ⟨"get", endpoint ++ path, none⟩).status < 400 →
      resthelper tr "get" path (Json.str "") e
        = (.ok (tr ⟨"get", endpoint ++ path, none⟩).body,
           [⟨"get", endpoint ++ path, none⟩])) := by
  refine ⟨fun h404 => ?_, fun hge => ?_, fun hlt => ?_⟩
  · simp [resthelper, h404]
  · simp [resthelper, hge]
  · have h1 : ((tr ⟨"get", endpoint ++ path, none⟩).status == 404) = false := by
      simp
      omega
    have h2 : ¬ 400 ≤ (tr ⟨"get", endpoint ++ path, none⟩).status := by omega
    simp [resthelper, h1, h2]

/-- Witness for C7: a 404 with expect_404 (the availability check) is
returned as a success, a 500 without expect_404 raises `httpError 500`,
and a 200 returns the body. -/
theorem get_dispatch_status_semantics_witness :
    resthelper tr404 "get" "/domains/nonexistent/check" (Json.str "") true
      = (.ok (Json.obj [("available", Json.bool true)]),
         [⟨"get", endpoint ++ "/domains/nonexistent/check", none⟩])
  ∧ resthelper tr500 "get" "/domains/x" (Json.str "") false
      = (.error (.httpError 500 (Json.obj [("error", Json.str "boom")])),
         [⟨"get", endpoint ++ "/domains/x", none⟩])
  ∧ resthelper trOk "get" "/domains" (Json.str "") false
      = (.ok (Json.obj [("ok", Json.bool true)]),
         [⟨"get", endpoint ++ "/domains", none⟩]) :=
  ⟨(get_dispatch_status_semantics tr404 "/domains/nonexistent/check" true).1 rfl,
   (get_dispatch_status_semantics tr500 "/domains/x" false).2.1 (by decide),
   (get_dispatch_status_semantics trOk "/domains" false).2.2 (by decide)⟩

/-- Claim C8: a `post` or `put` dispatch with falsy (absent or empty)
`data` falls through every branch of the helper to the final
`raise Exception(...)`: the call fails before the transport is touched,
and the list of transport invocations is empty. -/
theorem dispatch_write_without_body_raises (tr : Transport) (url : String)
    (data : Json) (e : Bool) (h : data.truthy = false) :
    resthelper tr "post" url data e
      = (.error (.exn "Could not find valid method to perform."), [])
  ∧ resthelper tr "put" url data e
      = (.error (.exn "Could not find valid method to perform."), []) := by
  constructor <;> simp [resthelper, h]

/-- Witness for C8 at the default `data = ""` of the source: both POST and
PUT raise with zero transport invocations. -/
theorem dispatch_write_without_body_raises_witness :
    (Json.str "").truthy = false
  ∧ resthelper trOk "post" "/domains" (Json.str "") false
      = (.error (.exn "Could not find valid method to perform."), [])
  ∧ resthelper trOk "put" "/domains" (Json.str "") false
      = (.error (.exn "Could not find valid method to perform."), []) :=
  ⟨rfl,
   (dispatch_write_without_body_raises trOk "/domains" (Json.str "") false rfl).1,
   (dispatch_write_without_body_raises trOk "/domains" (Json.str "") false rfl).2⟩

/-- Counterexample to claim C9 as stated: a priority of 0 is a legitimate
supplied value (MX priority zero), yet because the source tests Python
truthiness (`if record_prio:`) rather than presence, the issued body OMITS
the `prio` key — "including them exactly when supplied" fails. -/
theorem create_record_supplied_zero_prio_omitted :
    (Json.num 0).truthy = false
  ∧ create_record trOk "example.com" "www" "MX" "mail.example.com"
      (Json.str "") (Json.num 0)
      = (.ok (Json.obj [("ok", Json.bool true)]),
         [⟨"post", "https://dnsimple.com/domains/example.com/records",
           some (Json.obj [("record",
             Json.obj [("name", Json.str "www"),
                       ("record_type", Json.str "MX"),
                       ("content", Json.str "mail.example.com")])])⟩]) :=
  ⟨rfl, rfl⟩

/-- The request the amended claim C9 predicts, written from the claim: a
POST to `/domains/{domain}/records` whose `record` dict holds name,
record_type and content, with `ttl` and `prio` present exactly when the
supplied value is truthy (non-empty, non-zero). -/
def createRecordExpectedCall (domain record_name record_type record_content :
    String) (record_ttl record_prio : Json) : HttpCall :=
  ⟨"post", endpoint ++ ("/domains/" ++ domain ++ "/records"),
   some (Json.obj [("record", Json.obj (
     [("name", Json.str record_name),
      ("record_type", Json.str record_type),
      ("content", Json.str record_content)]
     ++ (if record_ttl.truthy then [("ttl", record_ttl)] else [])
     ++ (if record_prio.truthy then [("prio", record_prio)] else [])))])⟩

/-- Claim C9 as amended: for every call, `create_record` issues exactly
the predicted POST — `ttl` and `prio` keys present iff the supplied value
is truthy (so `ttl=3600` adds the key, an absent or falsy value omits
it) — and returns the decoded response. -/
theorem create_record_marshal_truthy_fields (tr : Transport)
    (domain record_name record_type record_content : String)
    (record_ttl record_prio : Json) :
    create_record tr domain record_name record_type record_content
      record_ttl record_prio
      = (.ok (tr (createRecordExpectedCall domain record_name record_type
                   record_content record_ttl record_prio)).body,
         [createRecordExpectedCall domain record_name record_type
           record_content record_ttl record_prio]) := by
  cases h1 : record_ttl.truthy <;> cases h2 : record_prio.truthy <;>
    simp [create_record, createRecordExpectedCall, h1, h2, resthelper_post_record]

/-- Claim C10: `update_record` with all four optional fields falsy still
sends `{"record": {}}`: the one-key outer wrapper is truthy, so the
helper accepts it as a present body and issues the PUT to
`/domains/{domain}/records/{record_id}`; nothing is rejected client-side. -/
theorem update_record_empty_update_sent (tr : Transport)
    (domain record_id : String) (rn rc rt rp : Json)
    (hn : rn.truthy = false) (hc : rc.truthy = false)
    (ht : rt.truthy = false) (hp : rp.truthy = false) :
    (Json.obj [("record", Json.obj [])]).truthy = true
  ∧ update_record tr domain record_id rn rc rt rp
      = (.ok (tr ⟨"put",
            endpoint ++ ("/domains/" ++ domain ++ "/records/" ++ record_id),
            some (Json.obj [("record", Json.obj [])])⟩).body,
         [⟨"put", endpoint ++ ("/domains/" ++ domain ++ "/records/" ++ record_id),
           some (Json.obj [("record", Json.obj [])])⟩]) := by
  refine ⟨rfl, ?_⟩
  simp [update_record, hn, hc, ht, hp, resthelper_put_record]

/-- Witness for C10 at the source defaults (every optional field `""`):
the PUT is issued with body `{"record": {}}` and the decoded response is
returned. -/
theorem update_record_empty_update_sent_witness :
    (Json.str "").truthy = false
  ∧ ((Json.obj [("record", Json.obj [])]).truthy = true
     ∧ update_record trOk "example.com" "2"
         (Json.str "") (Json.str "") (Json.str "") (Json.str "")
         = (.ok (Json.obj [("ok", Json.bool true)]),
            [⟨"put", endpoint ++ ("/domains/" ++ "example.com" ++ "/records/" ++ "2"),
              some (Json.obj [("record", Json.obj [])])⟩])) :=
  ⟨rfl,
   update_record_empty_update_sent trOk "example.com" "2"
     (Json.str "") (Json.str "") (Json.str "") (Json.str "") rfl rfl rfl rfl⟩

end Dnsimple
